import Mathlib

/-!
Shallow embedding of `src/Keithley2182a_6221/keith_meas_abc.py` (class
`KeithMeasure`): a mutable configuration record for Keithley 6221/2182A
transport measurements, with plain setters, base-class no-op setters, and
a staircase point-count computation.

Python floats are modelled as rationals (`ℚ`); Python `int` fields as `ℤ`;
Python `None` as `Option.none`.  Methods that mutate `self` are embedded as
functions `KeithMeasure → KeithMeasure`; methods that return a value without
assigning to `self` return that value (paired with the unchanged state where
a frame property is at stake).
-/

/-- State of a `KeithMeasure` instance: the fields assigned in `__init__`. -/
structure KeithMeasure where
  unit_idx : ℤ
  curr1 : ℚ
  curr2 : ℚ
  num_points : ℤ
  meas_delay : ℚ
  low_meas : Bool
  filter_on : Bool
  filter_window : ℤ
  filter_count : ℤ
  pulse_width : Option ℚ
deriving DecidableEq, Repr

/-- `__init__`: the default state of a freshly constructed instance. -/
def KeithMeasure.init : KeithMeasure where
  unit_idx := 0
  curr1 := 0
  curr2 := 0
  num_points := 0
  meas_delay := 2
  low_meas := true
  filter_on := false
  filter_window := 0
  filter_count := 10
  pulse_width := none

/-- In Python 3 the metaclass of a class comes only from a `metaclass=`
keyword in the class header; a `__metaclass__` class attribute (Python 2
syntax) is an ordinary, inert attribute.  The source reads
`class KeithMeasure():`, so there is no `metaclass=` keyword. -/
def KeithMeasure.metaclass_kwarg : Option String := none

/-- The effective metaclass of `KeithMeasure` under Python 3 semantics:
the `metaclass=` keyword if present, else the default `type`.  The
`__metaclass__ = ABCMeta` attribute in the class body does not enter here. -/
def KeithMeasure.effective_metaclass : String :=
  KeithMeasure.metaclass_kwarg.getD "type"

/-- The methods of `KeithMeasure` carrying the `@abstractmethod` decorator. -/
def KeithMeasure.abstract_methods : List String :=
  ["get_meas_type_str", "set_meas_rate"]

/-- Python instantiation of `KeithMeasure`: `TypeError` is raised if and only
if the effective metaclass is `ABCMeta` and some abstract method lacks an
override; otherwise `__init__` runs and yields the default state. -/
def KeithMeasure.instantiate : Except String KeithMeasure :=
  if KeithMeasure.effective_metaclass = "ABCMeta" ∧
      KeithMeasure.abstract_methods ≠ [] then
    Except.error "TypeError: cannot instantiate abstract class KeithMeasure"
  else
    Except.ok KeithMeasure.init

/-- `get_meas_type_str`: the body under the decorator is a docstring alone,
so the call returns Python `None`. -/
def KeithMeasure.get_meas_type_str (_ : KeithMeasure) : Option String := none

/-- `set_unit_idx(idx)`: `self.unit_idx = idx`. -/
def KeithMeasure.set_unit_idx (self : KeithMeasure) (idx : ℤ) : KeithMeasure :=
  { self with unit_idx := idx }

/-- `set_curr1(num)`: `self.curr1 = num`. -/
def KeithMeasure.set_curr1 (self : KeithMeasure) (num : ℚ) : KeithMeasure :=
  { self with curr1 := num }

/-- `set_curr2(num)`: `self.curr2 = num`. -/
def KeithMeasure.set_curr2 (self : KeithMeasure) (num : ℚ) : KeithMeasure :=
  { self with curr2 := num }

/-- `set_curr_step(num)`: body is `pass`. -/
def KeithMeasure.set_curr_step (self : KeithMeasure) (_ : ℚ) : KeithMeasure :=
  self

/-- `set_curr_delta(num)`: body is `pass`. -/
def KeithMeasure.set_curr_delta (self : KeithMeasure) (_ : ℚ) : KeithMeasure :=
  self

/-- `set_num_points(points)`: `self.num_points = points`. -/
def KeithMeasure.set_num_points (self : KeithMeasure) (points : ℤ) :
    KeithMeasure :=
  { self with num_points := points }

/-- Python float floor division `a // b`: `ZeroDivisionError` when `b == 0`,
else the floor of the true quotient (as a float, hence value in `ℚ`). -/
def pyFloorDiv (a b : ℚ) : Except String ℚ :=
  if b = 0 then Except.error "ZeroDivisionError"
  else Except.ok ((Int.floor (a / b) : ℤ) : ℚ)

/-- `calc_num_points(start, stop, step)`:
`try: out = (abs((stop - start) // step) + 1) except ZeroDivisionError: out = 1`,
then `return out`.  The method assigns nothing to `self`; the unchanged state
is returned alongside the value. -/
def KeithMeasure.calc_num_points (self : KeithMeasure)
    (start stop step : ℚ) : ℚ × KeithMeasure :=
  let out : ℚ :=
    match pyFloorDiv (stop - start) step with
    | Except.ok q => |q| + 1
    | Except.error _ => 1
  (out, self)

/-- `set_num_sweeps(sweeps)`: body is `pass`. -/
def KeithMeasure.set_num_sweeps (self : KeithMeasure) (_ : ℤ) : KeithMeasure :=
  self

/-- `set_meas_rate(rate)`: decorated `@abstractmethod`, body is `pass`;
under the inert metaclass the call executes `pass` and returns `None`. -/
def KeithMeasure.set_meas_rate (self : KeithMeasure) (_ : ℤ) : KeithMeasure :=
  self

/-- `set_meas_delay(num)`: `self.meas_delay = num`. -/
def KeithMeasure.set_meas_delay (self : KeithMeasure) (num : ℚ) :
    KeithMeasure :=
  { self with meas_delay := num }

/-- `set_pulse_width(num)`: body is `pass`. -/
def KeithMeasure.set_pulse_width (self : KeithMeasure) (_ : ℚ) :
    KeithMeasure :=
  self

/-- `set_low_meas(enable)`: body is `pass`. -/
def KeithMeasure.set_low_meas (self : KeithMeasure) (_ : Bool) :
    KeithMeasure :=
  self

/-- `set_filter_idx(idx)`: body is `pass`. -/
def KeithMeasure.set_filter_idx (self : KeithMeasure) (_ : ℤ) : KeithMeasure :=
  self

/-- `set_filter_on(enable)`: `self.filter_on = enable`. -/
def KeithMeasure.set_filter_on (self : KeithMeasure) (enable : Bool) :
    KeithMeasure :=
  { self with filter_on := enable }

/-- `set_filter_window(wind)`: `self.filter_window = wind`. -/
def KeithMeasure.set_filter_window (self : KeithMeasure) (wind : ℤ) :
    KeithMeasure :=
  { self with filter_window := wind }

/-- `set_filter_count(count)`: `self.filter_count = count`. -/
def KeithMeasure.set_filter_count (self : KeithMeasure) (count : ℤ) :
    KeithMeasure :=
  { self with filter_count := count }

/-- `get_total_points()`: `return self.num_points`. -/
def KeithMeasure.get_total_points (self : KeithMeasure) : ℤ :=
  self.num_points

/-- `update_num_points()`: body is `pass`. -/
def KeithMeasure.update_num_points (self : KeithMeasure) : KeithMeasure :=
  self

/-- One base-class method call, with its argument(s): the alphabet of finite
operation sequences on a `KeithMeasure` instance. -/
inductive Op where
  | set_unit_idx (idx : ℤ)
  | set_curr1 (num : ℚ)
  | set_curr2 (num : ℚ)
  | set_curr_step (num : ℚ)
  | set_curr_delta (num : ℚ)
  | set_num_points (points : ℤ)
  | calc_num_points (start stop step : ℚ)
  | set_num_sweeps (sweeps : ℤ)
  | set_meas_rate (rate : ℤ)
  | set_meas_delay (num : ℚ)
  | set_pulse_width (num : ℚ)
  | set_low_meas (enable : Bool)
  | set_filter_idx (idx : ℤ)
  | set_filter_on (enable : Bool)
  | set_filter_window (wind : ℤ)
  | set_filter_count (count : ℤ)
  | get_meas_type_str
  | get_total_points
  | update_num_points
deriving DecidableEq, Repr

/-- The state effect of one base-class method call (value-returning calls
keep the state of the embedding of the corresponding method). -/
def Op.apply (op : Op) (s : KeithMeasure) : KeithMeasure :=
  match op with
  | Op.set_unit_idx idx => s.set_unit_idx idx
  | Op.set_curr1 num => s.set_curr1 num
  | Op.set_curr2 num => s.set_curr2 num
  | Op.set_curr_step num => s.set_curr_step num
  | Op.set_curr_delta num => s.set_curr_delta num
  | Op.set_num_points points => s.set_num_points points
  | Op.calc_num_points start stop step => (s.calc_num_points start stop step).2
  | Op.set_num_sweeps sweeps => s.set_num_sweeps sweeps
  | Op.set_meas_rate rate => s.set_meas_rate rate
  | Op.set_meas_delay num => s.set_meas_delay num
  | Op.set_pulse_width num => s.set_pulse_width num
  | Op.set_low_meas enable => s.set_low_meas enable
  | Op.set_filter_idx idx => s.set_filter_idx idx
  | Op.set_filter_on enable => s.set_filter_on enable
  | Op.set_filter_window wind => s.set_filter_window wind
  | Op.set_filter_count count => s.set_filter_count count
  | Op.get_meas_type_str => s
  | Op.get_total_points => s
  | Op.update_num_points => s

/-- Running a finite sequence of base-class calls from a state. -/
def runOps (ops : List Op) (s : KeithMeasure) : KeithMeasure :=
  ops.foldl (fun t op => Op.apply op t) s

/-- No single base-class call writes `low_meas`. -/
lemma low_meas_step (op : Op) (s : KeithMeasure) :
    (Op.apply op s).low_meas = s.low_meas := by
  cases op <;> rfl

/-- A finite sequence of base-class calls leaves `low_meas` unchanged. -/
lemma low_meas_runOps (ops : List Op) (s : KeithMeasure) :
    (runOps ops s).low_meas = s.low_meas := by
  induction ops generalizing s with
  | nil => rfl
  | cons op rest ih =>
      show (runOps rest (Op.apply op s)).low_meas = s.low_meas
      rw [ih, low_meas_step]

/-- C1: the claim demands a contract violation when `get_meas_type_str` or
`set_meas_rate` is invoked on the unextended base type.  The code does the
opposite: because `__metaclass__ = ABCMeta` is Python 2 syntax and inert in
Python 3, instantiation of the base class succeeds, `get_meas_type_str()`
silently returns `None`, and `set_meas_rate(rate)` silently executes `pass`,
leaving the state unchanged. -/
theorem keith_abstract_methods_silently_succeed :
    KeithMeasure.instantiate = Except.ok KeithMeasure.init ∧
    (∀ s : KeithMeasure, s.get_meas_type_str = none) ∧
    (∀ (s : KeithMeasure) (rate : ℤ), s.set_meas_rate rate = s) := by
  refine ⟨?_, fun _ => rfl, fun _ _ => rfl⟩
  simp [KeithMeasure.instantiate, KeithMeasure.effective_metaclass,
    KeithMeasure.metaclass_kwarg]

/-- C2, counterexample: the claimed formula `floor(|stop - start| / step) + 1`
fails at `start = 10`, `stop = 0`, `step = 3`: the code computes
`abs(floor((0 - 10) / 3)) + 1 = 5`, the claim demands
`floor(|0 - 10| / 3) + 1 = 4`. -/
theorem calc_num_points_claim_counterexample :
    (KeithMeasure.init.calc_num_points 10 0 3).1 ≠
      ((Int.floor (|(0 : ℚ) - 10| / 3) : ℤ) : ℚ) + 1 := by
  norm_num [KeithMeasure.calc_num_points, pyFloorDiv]

/-- C2, amended: for `step ≠ 0`, `calc_num_points(start, stop, step)` returns
`|floor((stop - start) / step)| + 1` (the absolute value is taken after the
floor division); the claimed formula `floor(|stop - start| / step) + 1` does
hold in the restricted case `0 < step` and `start ≤ stop`, and in particular
`calc_num_points(0, 10, 2) = 6`. -/
theorem calc_num_points_amended (s : KeithMeasure) (start stop step : ℚ)
    (h : step ≠ 0) :
    (s.calc_num_points start stop step).1 =
      |((Int.floor ((stop - start) / step) : ℤ) : ℚ)| + 1 ∧
    (0 < step → start ≤ stop →
      (s.calc_num_points start stop step).1 =
        ((Int.floor (|stop - start| / step) : ℤ) : ℚ) + 1) ∧
    (s.calc_num_points 0 10 2).1 = 6 := by
  have hd : pyFloorDiv (stop - start) step =
      Except.ok ((Int.floor ((stop - start) / step) : ℤ) : ℚ) := by
    simp [pyFloorDiv, h]
  refine ⟨?_, ?_, ?_⟩
  · simp [KeithMeasure.calc_num_points, hd]
  · intro hstep hle
    have hq : 0 ≤ (stop - start) / step :=
      div_nonneg (by linarith) (le_of_lt hstep)
    have hfl : (0 : ℤ) ≤ Int.floor ((stop - start) / step) :=
      Int.floor_nonneg.mpr hq
    have habs : |((Int.floor ((stop - start) / step) : ℤ) : ℚ)| =
        ((Int.floor ((stop - start) / step) : ℤ) : ℚ) := by
      rw [abs_of_nonneg]
      exact_mod_cast hfl
    have hsub : |stop - start| = stop - start := abs_of_nonneg (by linarith)
    simp [KeithMeasure.calc_num_points, hd, habs, hsub]
  · norm_num [KeithMeasure.calc_num_points, pyFloorDiv]

/-- Witness for `calc_num_points_amended`: the hypothesis `step ≠ 0`
discharged at `step = 3` and `step = 2`, with concrete evaluations. -/
theorem calc_num_points_amended_witness :
    (KeithMeasure.init.calc_num_points 10 0 3).1 =
      |((Int.floor (((0 : ℚ) - 10) / 3) : ℤ) : ℚ)| + 1 ∧
    (KeithMeasure.init.calc_num_points 0 10 2).1 =
      ((Int.floor (|(10 : ℚ) - 0| / 2) : ℤ) : ℚ) + 1 ∧
    (KeithMeasure.init.calc_num_points 0 10 2).1 = 6 :=
  ⟨(calc_num_points_amended KeithMeasure.init 10 0 3 (by norm_num)).1,
   (calc_num_points_amended KeithMeasure.init 0 10 2 (by norm_num)).2.1
     (by norm_num) (by norm_num),
   (calc_num_points_amended KeithMeasure.init 0 10 2 (by norm_num)).2.2⟩

/-- C3: a zero step yields the degenerate single-point result 1 for every
`x`, `y` and every state: the `ZeroDivisionError` is caught inside the
method and never propagated. -/
theorem calc_num_points_zero_step (s : KeithMeasure) (x y : ℚ) :
    (s.calc_num_points x y 0).1 = 1 := by
  simp [KeithMeasure.calc_num_points, pyFloorDiv]

/-- C4: immediately after `__init__`, every field holds its documented
default: `unit_idx = 0`, `curr1 = 0`, `curr2 = 0`, `num_points = 0`,
`meas_delay = 2`, `low_meas = true`, `filter_on = false`,
`filter_window = 0`, `filter_count = 10`, `pulse_width` unset. -/
theorem init_default_state :
    KeithMeasure.init.unit_idx = 0 ∧
    KeithMeasure.init.curr1 = 0 ∧
    KeithMeasure.init.curr2 = 0 ∧
    KeithMeasure.init.num_points = 0 ∧
    KeithMeasure.init.meas_delay = 2 ∧
    KeithMeasure.init.low_meas = true ∧
    KeithMeasure.init.filter_on = false ∧
    KeithMeasure.init.filter_window = 0 ∧
    KeithMeasure.init.filter_count = 10 ∧
    KeithMeasure.init.pulse_width = none :=
  ⟨rfl, rfl, rfl, rfl, rfl, rfl, rfl, rfl, rfl, rfl⟩

/-- C5: each plain storing setter stores its argument (set-then-read returns
the value) and is idempotent (setting the same value twice equals setting it
once), for every state and every value. -/
theorem plain_setters_store_and_idempotent (s : KeithMeasure)
    (i : ℤ) (q : ℚ) (b : Bool) :
    ((s.set_unit_idx i).unit_idx = i ∧
      (s.set_unit_idx i).set_unit_idx i = s.set_unit_idx i) ∧
    ((s.set_curr1 q).curr1 = q ∧
      (s.set_curr1 q).set_curr1 q = s.set_curr1 q) ∧
    ((s.set_curr2 q).curr2 = q ∧
      (s.set_curr2 q).set_curr2 q = s.set_curr2 q) ∧
    ((s.set_num_points i).num_points = i ∧
      (s.set_num_points i).set_num_points i = s.set_num_points i) ∧
    ((s.set_meas_delay q).meas_delay = q ∧
      (s.set_meas_delay q).set_meas_delay q = s.set_meas_delay q) ∧
    ((s.set_filter_on b).filter_on = b ∧
      (s.set_filter_on b).set_filter_on b = s.set_filter_on b) ∧
    ((s.set_filter_window i).filter_window = i ∧
      (s.set_filter_window i).set_filter_window i = s.set_filter_window i) ∧
    ((s.set_filter_count i).filter_count = i ∧
      (s.set_filter_count i).set_filter_count i = s.set_filter_count i) :=
  ⟨⟨rfl, rfl⟩, ⟨rfl, rfl⟩, ⟨rfl, rfl⟩, ⟨rfl, rfl⟩, ⟨rfl, rfl⟩, ⟨rfl, rfl⟩,
    ⟨rfl, rfl⟩, ⟨rfl, rfl⟩⟩

/-- C6: every base-type no-op setter, at every argument and every state,
leaves the entire instance state unchanged. -/
theorem noop_setters_leave_state_unchanged (s : KeithMeasure)
    (q : ℚ) (n : ℤ) (b : Bool) :
    s.set_curr_step q = s ∧
    s.set_curr_delta q = s ∧
    s.set_num_sweeps n = s ∧
    s.set_pulse_width q = s ∧
    s.set_low_meas b = s ∧
    s.set_filter_idx n = s ∧
    s.update_num_points = s :=
  ⟨rfl, rfl, rfl, rfl, rfl, rfl, rfl⟩

/-- C7: `get_total_points()` returns the current `num_points` in every state,
and 0 on a freshly constructed instance. -/
theorem get_total_points_eq_num_points :
    (∀ s : KeithMeasure, s.get_total_points = s.num_points) ∧
    KeithMeasure.init.get_total_points = 0 :=
  ⟨fun _ => rfl, rfl⟩

/-- C8: `set_filter_window(wind)` stores `wind` unchanged for every integer
`wind`, with no range validation (the embedding is a total function: no
error path exists); in particular the out-of-range value 99 is stored. -/
theorem set_filter_window_no_validation (s : KeithMeasure) (wind : ℤ) :
    (s.set_filter_window wind).filter_window = wind ∧
    (KeithMeasure.init.set_filter_window 99).filter_window = 99 :=
  ⟨rfl, rfl⟩

/-- C9: `calc_num_points` is pure with respect to the instance: for every
`start`, `stop`, `step` (including `step = 0`) the post-state agrees with the
pre-state on every field; in particular `num_points` is not overwritten. -/
theorem calc_num_points_pure (s : KeithMeasure) (start stop step : ℚ) :
    ((s.calc_num_points start stop step).2).unit_idx = s.unit_idx ∧
    ((s.calc_num_points start stop step).2).curr1 = s.curr1 ∧
    ((s.calc_num_points start stop step).2).curr2 = s.curr2 ∧
    ((s.calc_num_points start stop step).2).num_points = s.num_points ∧
    ((s.calc_num_points start stop step).2).meas_delay = s.meas_delay ∧
    ((s.calc_num_points start stop step).2).low_meas = s.low_meas ∧
    ((s.calc_num_points start stop step).2).filter_on = s.filter_on ∧
    ((s.calc_num_points start stop step).2).filter_window = s.filter_window ∧
    ((s.calc_num_points start stop step).2).filter_count = s.filter_count ∧
    ((s.calc_num_points start stop step).2).pulse_width = s.pulse_width :=
  ⟨rfl, rfl, rfl, rfl, rfl, rfl, rfl, rfl, rfl, rfl⟩

/-- C10: `low_meas` is invariantly `true` on the base type: `__init__` sets
it to `true` and no base-class call in any finite sequence of operations
writes it. -/
theorem low_meas_invariant (ops : List Op) :
    (runOps ops KeithMeasure.init).low_meas = true := by
  rw [low_meas_runOps]
  rfl
